import Mathlib

/-!
# The hook setter of clink (`clink/app/src/utils/hook_setter.cpp`)

A shallow embedding of the hook registry (`hook_setter`), of its three commit
strategies and of the one-shot trap (`set_hook_trap`, `hook_trap_veh`).

* Pointers are natural numbers and `0` is `nullptr`.
* The process is a `World`: the bytes of memory, the chain of vectored
  exception handlers, the four file-static globals of the trap, and a log.
* What the code consumes from outside the file is an `Env`: the debugger
  flag, export and module lookup, whether a write succeeds, the import-table
  and entry patchers and the functions behind the function pointers.
* The log is ghost state.  It records, in order, the operations that the code
  of `hook_setter.cpp` performs itself.  What a continuation or a patcher does
  shows in the rest of the `World`, never in the log.
-/

namespace Clink

/-- Pointers and function pointers; `0` is `nullptr`. -/
abbrev Ptr := Nat

/-- One operation performed by the code of `hook_setter.cpp`. -/
inductive Event where
  | get_export (module : Ptr) (name : String) (result : Ptr)
  | vm_write (addr : Ptr) (value : Nat) (ok : Bool)
  | veh_add (handle : Ptr)
  | veh_remove (handle : Ptr)
  | trap_call (trap : Ptr) (result : Bool)
  | hook_iat (base : Ptr) (name : String) (hook : Ptr) (result : Ptr)
  | hook_jmp (module : Ptr) (name : String) (hook : Ptr) (result : Ptr)
  deriving DecidableEq, Repr

/-- The state of the process.  `g_hook_trap`, `g_hook_trap_addr`,
`g_hook_trap_value` and `g_hook_veh_handle` are the four static globals of
lines 14-17; `veh` is the chain of installed vectored exception handlers
(most recently installed first) and `veh_next` numbers the handles. -/
structure World where
  mem : Ptr → Nat
  veh : List Ptr
  veh_next : Nat
  g_hook_trap : Ptr
  g_hook_trap_addr : Ptr
  g_hook_trap_value : Nat
  g_hook_veh_handle : Ptr
  log : List Event

/-- What `hook_setter.cpp` consumes and does not define.
* `debugger`: the answer of `IsDebuggerPresent()`;
* `get_export module name`: `pe_info(module).get_export(name)`;
* `self_base`: `vm_region("clink").get_parent().get_base()`;
* `writable addr`: whether `vm_access().write` succeeds at `addr`;
* `hook_iat base name hook`: `hook_iat(base, nullptr, name, hook, 1)` of
  process/hook.h, the value it returns and what it does to the process;
* `hook_jmp module name hook`: `hook_jmp(module, name, hook)` of process/hook.h;
* `call f`: running the function behind the pointer `f` of type `bool (*)()`. -/
structure Env where
  debugger : Bool
  get_export : Ptr → String → Ptr
  self_base : Ptr
  writable : Ptr → Bool
  hook_iat : Ptr → String → Ptr → World → Ptr × World
  hook_jmp : Ptr → String → Ptr → World → Ptr × World
  call : Ptr → World → Bool × World

/-- Append one event to the log. -/
def emit (e : Event) (w : World) : World :=
  { w with log := w.log ++ [e] }

/-- The byte at an address, as `*(unsigned char*)addr` reads it. -/
def read_byte (w : World) (addr : Ptr) : Nat :=
  w.mem addr % 256

/-- Modelled from the spec: `vm_access().write(addr, &value, 1)` of
process/vm.h, which is not part of the sources at hand.  Section 6 gives
`write(address, buffer, length) -> success`: a successful write stores the
byte, a failed one leaves memory as it was. -/
def vm_write (env : Env) (addr : Ptr) (value : Nat) (w : World) : Bool × World :=
  if env.writable addr then
    (true, emit (Event.vm_write addr value true)
      { w with mem := fun a => if a = addr then value else w.mem a })
  else
    (false, emit (Event.vm_write addr value false) w)

/-- The call `pe_info(module).get_export(name)`, logged. -/
def get_export (env : Env) (module : Ptr) (name : String) (w : World) : Ptr × World :=
  (env.get_export module name, emit (Event.get_export module name (env.get_export module name)) w)

/-- The system call `AddVectoredExceptionHandler(1, hook_trap_veh)`: the handler
goes to the front of the chain and a new non-null handle is returned. -/
def AddVectoredExceptionHandler (w : World) : Ptr × World :=
  (w.veh_next + 1,
    emit (Event.veh_add (w.veh_next + 1))
      { w with veh := (w.veh_next + 1) :: w.veh, veh_next := w.veh_next + 1 })

/-- The system call `RemoveVectoredExceptionHandler(handle)`: the registration
with that handle leaves the chain, every other one stays. -/
def RemoveVectoredExceptionHandler (handle : Ptr) (w : World) : World :=
  emit (Event.veh_remove handle) { w with veh := w.veh.erase handle }

/-- Calling the function pointer `trap` of type `bool (*)()`.  The callee may
change the process in any way; the log gets exactly one entry for the call. -/
def call_trap (env : Env) (trap : Ptr) (w : World) : Bool × World :=
  ((env.call trap w).1,
    { (env.call trap w).2 with log := w.log ++ [Event.trap_call trap (env.call trap w).1] })

/-- The call `hook_iat(base, nullptr, name, hook, 1)`, logged. -/
def hook_iat (env : Env) (base : Ptr) (name : String) (hook : Ptr) (w : World) : Ptr × World :=
  ((env.hook_iat base name hook w).1,
    { (env.hook_iat base name hook w).2 with
      log := w.log ++ [Event.hook_iat base name hook (env.hook_iat base name hook w).1] })

/-- The call `hook_jmp(module, name, hook)`, logged. -/
def hook_jmp (env : Env) (module : Ptr) (name : String) (hook : Ptr) (w : World) : Ptr × World :=
  ((env.hook_jmp module name hook w).1,
    { (env.hook_jmp module name hook w).2 with
      log := w.log ++ [Event.hook_jmp module name hook (env.hook_jmp module name hook w).1] })

/-- The exception code `EXCEPTION_PRIV_INSTRUCTION` of the Windows headers. -/
def EXCEPTION_PRIV_INSTRUCTION : Nat := 0xC0000096

/-- The answer `EXCEPTION_CONTINUE_SEARCH` of the Windows headers. -/
def EXCEPTION_CONTINUE_SEARCH : Int := 0

/-- The answer `EXCEPTION_CONTINUE_EXECUTION` of the Windows headers. -/
def EXCEPTION_CONTINUE_EXECUTION : Int := -1

/-- The part of `EXCEPTION_RECORD` that the handler reads. -/
structure EXCEPTION_RECORD where
  ExceptionCode : Nat
  ExceptionAddress : Ptr
  deriving DecidableEq, Repr

/-- The argument of a vectored exception handler. -/
structure EXCEPTION_POINTERS where
  ExceptionRecord : EXCEPTION_RECORD
  deriving DecidableEq, Repr

/-- The handler `hook_trap_veh` (lines 22-56).  The `LOG` calls and the read of
the stack pointer that feeds one of them have no effect on the process. -/
def hook_trap_veh (env : Env) (info : EXCEPTION_POINTERS) (w : World) : Int × World :=
  let er := info.ExceptionRecord
  if er.ExceptionCode ≠ EXCEPTION_PRIV_INSTRUCTION then
    (EXCEPTION_CONTINUE_SEARCH, w)
  else if er.ExceptionAddress ≠ w.g_hook_trap_addr then
    (EXCEPTION_CONTINUE_SEARCH, w)
  else
    -- Restore original instruction.
    let w1 := (vm_write env w.g_hook_trap_addr w.g_hook_trap_value w).2
    -- Apply hooks.
    let w2 := if w1.g_hook_trap ≠ 0 then (call_trap env w1.g_hook_trap w1).2 else w1
    let w3 := RemoveVectoredExceptionHandler w2.g_hook_veh_handle w2
    (EXCEPTION_CONTINUE_EXECUTION, w3)

/-- The function `set_hook_trap` (lines 59-84). -/
def set_hook_trap (env : Env) (module : Ptr) (func_name : String) (trap : Ptr)
    (w : World) : Bool × World :=
  -- If there is a debugger attached, we cannot use VEH.
  if env.debugger then
    call_trap env trap w
  else
    let r := get_export env module func_name w
    let addr := r.1
    if addr = 0 then
      (false, r.2)
    else
      let w1 := { r.2 with g_hook_trap := trap }
      let w2 := { w1 with g_hook_trap_addr := addr }
      let w3 := { w2 with g_hook_trap_value := read_byte w2 w2.g_hook_trap_addr }
      let h := AddVectoredExceptionHandler w3
      let w4 := { h.2 with g_hook_veh_handle := h.1 }
      -- Write a HALT instruction to force an exception.
      let w5 := (vm_write env addr 0xf4 w4).2
      (true, w5)

/-- The kinds of hook that `commit` switches over. -/
inductive hook_type where
  | hook_type_iat_by_name
  | hook_type_jmp
  | hook_type_trap
  deriving DecidableEq, Repr

/-- One queued request, `hook_setter::hook_desc`. -/
structure hook_desc where
  type : hook_type
  module : Ptr
  hook : Ptr
  name : String
  deriving DecidableEq, Repr

instance : Inhabited hook_desc := ⟨⟨hook_type.hook_type_iat_by_name, 0, 0, ""⟩⟩

/-- The class `hook_setter`: the fixed array `m_descs`, whose length is
`sizeof_array(m_descs)`, and the count of the slots in use. -/
structure hook_setter where
  m_descs : List hook_desc
  m_desc_count : Nat
  deriving DecidableEq, Repr

/-- The constructor (lines 89-92): the count is zero and the array holds
whatever it holds. -/
def hook_setter.new (m_descs : List hook_desc) : hook_setter :=
  { m_descs := m_descs, m_desc_count := 0 }

/-- The method `hook_setter::add_desc` (lines 125-142).  The result is the
index of the slot written, `none` for `nullptr`. -/
def hook_setter.add_desc (hs : hook_setter) (type : hook_type) (module : Ptr)
    (name : String) (hook : Ptr) : Option Nat × hook_setter :=
  if hs.m_desc_count ≥ hs.m_descs.length then
    (none, hs)
  else
    let desc : hook_desc := { type := type, module := module, hook := hook, name := name }
    (some hs.m_desc_count,
      { m_descs := hs.m_descs.set hs.m_desc_count desc,
        m_desc_count := hs.m_desc_count + 1 })

/-- The method `hook_setter::add_trap` (lines 95-98). -/
def hook_setter.add_trap (hs : hook_setter) (module : Ptr) (name : String) (trap : Ptr) :
    Bool × hook_setter :=
  ((hs.add_desc hook_type.hook_type_trap module name trap).1 != none,
    (hs.add_desc hook_type.hook_type_trap module name trap).2)

/-- Modelled from the spec: the import-patch `add_*` call, declared in
hook_setter.h, which is not part of the sources at hand.  Section 4.1 makes it
analogous to `add_trap`: it enqueues a request of its kind. -/
def hook_setter.add_iat (hs : hook_setter) (module : Ptr) (name : String) (hook : Ptr) :
    Bool × hook_setter :=
  ((hs.add_desc hook_type.hook_type_iat_by_name module name hook).1 != none,
    (hs.add_desc hook_type.hook_type_iat_by_name module name hook).2)

/-- Modelled from the spec: the entry-patch `add_*` call, declared in
hook_setter.h, which is not part of the sources at hand.  Section 4.1 makes it
analogous to `add_trap`: it enqueues a request of its kind. -/
def hook_setter.add_jmp (hs : hook_setter) (module : Ptr) (name : String) (hook : Ptr) :
    Bool × hook_setter :=
  ((hs.add_desc hook_type.hook_type_jmp module name hook).1 != none,
    (hs.add_desc hook_type.hook_type_jmp module name hook).2)

/-- The method `hook_setter::commit_iat` (lines 145-164). -/
def commit_iat (env : Env) (self : Ptr) (desc : hook_desc) (w : World) : Bool × World :=
  let r := hook_iat env desc.module desc.name desc.hook w
  let addr := r.1
  if addr = 0 then
    (false, r.2)
  else
    let r2 := hook_iat env self desc.name addr r.2
    if r2.1 = 0 then
      (false, r2.2)
    else
      (true, r2.2)

/-- The method `hook_setter::commit_jmp` (lines 167-189). -/
def commit_jmp (env : Env) (self : Ptr) (desc : hook_desc) (w : World) : Bool × World :=
  let r := hook_jmp env desc.module desc.name desc.hook w
  let addr := r.1
  if addr = 0 then
    (false, r.2)
  else
    let r2 := hook_iat env self desc.name addr r.2
    if r2.1 = 0 then
      (false, r2.2)
    else
      (true, r2.2)

/-- The method `hook_setter::commit_trap` (lines 192-195); `self` is unused. -/
def commit_trap (env : Env) (_self : Ptr) (desc : hook_desc) (w : World) : Bool × World :=
  set_hook_trap env desc.module desc.name desc.hook w

/-- The loop of `hook_setter::commit` (lines 110-119): `n` iterations are
left, `i` is the loop index and `success` the counter. -/
def commit_loop (env : Env) (self : Ptr) (hs : hook_setter) :
    Nat → Nat → Nat → World → Nat × World
  | 0, _, success, w => (success, w)
  | n + 1, i, success, w =>
    let desc := hs.m_descs.getD i default
    let r := match desc.type with
      | hook_type.hook_type_iat_by_name => commit_iat env self desc w
      | hook_type.hook_type_jmp => commit_jmp env self desc w
      | hook_type.hook_type_trap => commit_trap env self desc w
    commit_loop env self hs n (i + 1) (success + r.1.toNat) r.2

/-- The method `hook_setter::commit` (lines 101-122). -/
def hook_setter.commit (env : Env) (hs : hook_setter) (w : World) : Nat × World :=
  -- Each hook needs fixing up, so we find the base address of our module.
  let self := env.self_base
  if self = 0 then
    (0, w)
  else
    -- Apply all the hooks added to the setter.
    commit_loop env self hs hs.m_desc_count 0 0 w

/-- Queueing one request through the `add_*` call of its kind. -/
def hook_setter.add (hs : hook_setter) (d : hook_desc) : Bool × hook_setter :=
  match d.type with
  | hook_type.hook_type_iat_by_name => hs.add_iat d.module d.name d.hook
  | hook_type.hook_type_jmp => hs.add_jmp d.module d.name d.hook
  | hook_type.hook_type_trap => hs.add_trap d.module d.name d.hook

/-- A sequence of `add_*` calls, one per request, in the order of the list. -/
def hook_setter.add_all (hs : hook_setter) : List hook_desc → hook_setter
  | [] => hs
  | d :: ds => (hs.add d).2.add_all ds

/-- The requests of a sequence of `add_*` calls whose call returned `true`,
in the order of the calls. -/
def hook_setter.accepted (hs : hook_setter) : List hook_desc → List hook_desc
  | [] => []
  | d :: ds =>
    if (hs.add d).1 then d :: (hs.add d).2.accepted ds else (hs.add d).2.accepted ds

/-- The strategy that matches the kind of a request. -/
def strategy (env : Env) (self : Ptr) (d : hook_desc) (w : World) : Bool × World :=
  match d.type with
  | hook_type.hook_type_iat_by_name => commit_iat env self d w
  | hook_type.hook_type_jmp => commit_jmp env self d w
  | hook_type.hook_type_trap => commit_trap env self d w

/-- The spec's account of commit (section 4.1): every request in insertion
order goes to the strategy of its kind, each one on the process as the
previous one left it, whatever the previous one reported.  The result is the
list of the reports and the final process. -/
def dispatch_all (env : Env) (self : Ptr) : List hook_desc → World → List Bool × World
  | [], w => ([], w)
  | d :: ds, w =>
    ((strategy env self d w).1 :: (dispatch_all env self ds (strategy env self d w).2).1,
      (dispatch_all env self ds (strategy env self d w).2).2)

/-- The patch of the target of a request by `hook_iat`: the first step of
`commit_iat`. -/
def iat_target (env : Env) (d : hook_desc) (w : World) : Ptr × World :=
  hook_iat env d.module d.name d.hook w

/-- The patch of the target of a request by `hook_jmp`: the first step of
`commit_jmp`. -/
def jmp_target (env : Env) (d : hook_desc) (w : World) : Ptr × World :=
  hook_jmp env d.module d.name d.hook w

/-- The patch of the import slot of the hooking module itself, for the symbol
of the request, with the value `r.1` that the patch of the target returned. -/
def own_import (env : Env) (self : Ptr) (d : hook_desc) (r : Ptr × World) : Ptr × World :=
  hook_iat env self d.name r.1 r.2

/-- The spec's reading of a hook "whose resolution and write steps both
succeeded" for a trap request armed with no debugger attached: the export
resolves and the write of the trap byte at that address succeeds. -/
def trap_steps_succeeded (env : Env) (d : hook_desc) : Bool :=
  env.get_export d.module d.name != 0 && env.writable (env.get_export d.module d.name)

/-! ### Concrete processes and environments for the closed statements -/

/-- A process with nothing armed: every byte is `0x48`, no handler installed. -/
def world0 : World :=
  { mem := fun _ => 0x48, veh := [], veh_next := 0, g_hook_trap := 0,
    g_hook_trap_addr := 0, g_hook_trap_value := 0, g_hook_veh_handle := 0, log := [] }

/-- No debugger; module `5` exports `f` at `100` and `g` at `200`; every write
succeeds; the patchers fail on module `9` and return `77` elsewhere; every
continuation returns `true` and touches nothing. -/
def env_plain : Env :=
  { debugger := false
    get_export := fun m n =>
      if m = 5 then (if n = "f" then 100 else if n = "g" then 200 else 0) else 0
    self_base := 1
    writable := fun _ => true
    hook_iat := fun base _ _ w => (if base = 9 then 0 else 77, w)
    hook_jmp := fun base _ _ w => (if base = 9 then 0 else 88, w)
    call := fun _ w => (true, w) }

/-- As `env_plain`, but no write succeeds. -/
def env_readonly : Env :=
  { env_plain with writable := fun _ => false }

/-- As `env_plain`, but a debugger is attached and continuation `7` returns
`false`. -/
def env_debugger : Env :=
  { env_plain with debugger := true, call := fun f w => (f != 7, w) }

/-- As `env_plain`, but the base of the hooking module is not found. -/
def env_noself : Env :=
  { env_plain with self_base := 0 }

/-- As `env_plain`, but continuation `7` arms a new trap on export `g` of
module `5` with continuation `8`, through `set_hook_trap`. -/
def env_rearm : Env :=
  { env_plain with
    call := fun f w => if f = 7 then set_hook_trap env_plain 5 "g" 8 w else (true, w) }

/-- As `env_plain`, but continuation `7` arms a new trap on the export `f` of
module `5` again, with continuation `8`, through `set_hook_trap`. -/
def env_rearm_same : Env :=
  { env_plain with
    call := fun f w => if f = 7 then set_hook_trap env_plain 5 "f" 8 w else (true, w) }

/-- As `env_plain`, but continuation `7` returns `false`. -/
def env_fail : Env :=
  { env_plain with call := fun f w => (f != 7, w) }

/-- A registry with room for one request, holding one. -/
def setter_full : hook_setter :=
  ((hook_setter.new [default]).add_trap 5 "g" 8).2

/-- A registry with room for four requests. -/
def setter4 : hook_setter :=
  hook_setter.new [default, default, default, default]

/-- Three requests, one of each kind; the second is on module `9`. -/
def reqs3 : List hook_desc :=
  [ { type := hook_type.hook_type_iat_by_name, module := 5, hook := 11, name := "a" },
    { type := hook_type.hook_type_jmp, module := 9, hook := 12, name := "b" },
    { type := hook_type.hook_type_trap, module := 5, hook := 7, name := "f" } ]

/-- The request of a trap on export `f` of module `5` with continuation `7`. -/
def req_trap : hook_desc :=
  { type := hook_type.hook_type_trap, module := 5, hook := 7, name := "f" }

/-- The request of an import patch of `a` in module `5` with replacement `11`. -/
def req_iat : hook_desc :=
  { type := hook_type.hook_type_iat_by_name, module := 5, hook := 11, name := "a" }

/-- The request of an entry patch of `b` in module `9` with replacement `12`. -/
def req_jmp : hook_desc :=
  { type := hook_type.hook_type_jmp, module := 9, hook := 12, name := "b" }

/-- A privileged-instruction exception at address `addr`. -/
def priv_at (addr : Ptr) : EXCEPTION_POINTERS :=
  { ExceptionRecord := { ExceptionCode := EXCEPTION_PRIV_INSTRUCTION, ExceptionAddress := addr } }

/-! ### The registry -/

lemma add_desc_room (hs : hook_setter) (type : hook_type) (module : Ptr) (name : String)
    (hook : Ptr) (h : hs.m_desc_count < hs.m_descs.length) :
    hs.add_desc type module name hook =
      (some hs.m_desc_count,
        { m_descs := hs.m_descs.set hs.m_desc_count
            { type := type, module := module, hook := hook, name := name },
          m_desc_count := hs.m_desc_count + 1 }) := by
  unfold hook_setter.add_desc
  rw [if_neg (by omega)]

lemma add_desc_full (hs : hook_setter) (type : hook_type) (module : Ptr) (name : String)
    (hook : Ptr) (h : hs.m_descs.length ≤ hs.m_desc_count) :
    hs.add_desc type module name hook = (none, hs) := by
  unfold hook_setter.add_desc
  rw [if_pos h]

lemma add_room (pre post : List hook_desc) (p d : hook_desc) :
    (hook_setter.add { m_descs := pre ++ p :: post, m_desc_count := pre.length } d).2 =
      { m_descs := (pre ++ [d]) ++ post, m_desc_count := (pre ++ [d]).length } := by
  have hlt : (hook_setter.mk (pre ++ p :: post) pre.length).m_desc_count <
      (hook_setter.mk (pre ++ p :: post) pre.length).m_descs.length := by
    simp
  obtain ⟨t, m, k, n⟩ := d
  cases t <;>
    simp [hook_setter.add, hook_setter.add_iat, hook_setter.add_jmp, hook_setter.add_trap,
      add_desc_room _ _ _ _ _ hlt]

lemma add_full (pre : List hook_desc) (d : hook_desc) :
    (hook_setter.add { m_descs := pre, m_desc_count := pre.length } d).2 =
      { m_descs := pre, m_desc_count := pre.length } := by
  have hle : (hook_setter.mk pre pre.length).m_descs.length ≤
      (hook_setter.mk pre pre.length).m_desc_count := by
    simp
  obtain ⟨t, m, k, n⟩ := d
  cases t <;>
    simp [hook_setter.add, hook_setter.add_iat, hook_setter.add_jmp, hook_setter.add_trap,
      add_desc_full _ _ _ _ _ hle]

lemma add_all_shape (reqs : List hook_desc) :
    ∀ pre post : List hook_desc,
      hook_setter.add_all { m_descs := pre ++ post, m_desc_count := pre.length } reqs =
        { m_descs := pre ++ reqs.take post.length ++ post.drop reqs.length,
          m_desc_count := (pre ++ reqs.take post.length).length } := by
  induction reqs with
  | nil => intro pre post; simp [hook_setter.add_all]
  | cons d ds ih =>
    intro pre post
    cases post with
    | nil =>
      have h := add_full pre d
      simp only [List.append_nil] at h ⊢
      rw [hook_setter.add_all, h]
      have := ih pre []
      simpa using this
    | cons p post =>
      rw [hook_setter.add_all, add_room, ih (pre ++ [d]) post]
      simp

lemma add_all_new (arr reqs : List hook_desc) :
    (hook_setter.new arr).add_all reqs =
      { m_descs := reqs.take arr.length ++ arr.drop reqs.length,
        m_desc_count := (reqs.take arr.length).length } := by
  have := add_all_shape reqs [] arr
  simpa [hook_setter.new] using this

/-! ### The commit loop -/

lemma commit_loop_step (env : Env) (self : Ptr) (hs : hook_setter) (n i success : Nat)
    (w : World) :
    commit_loop env self hs (n + 1) i success w =
      commit_loop env self hs n (i + 1)
        (success + (strategy env self (hs.m_descs.getD i default) w).1.toNat)
        (strategy env self (hs.m_descs.getD i default) w).2 := by
  rw [commit_loop]
  unfold strategy
  cases (hs.m_descs.getD i default).type <;> rfl

lemma commit_loop_dispatch (env : Env) (self : Ptr) (ds : List hook_desc) :
    ∀ (pre post : List hook_desc) (count success : Nat) (w : World),
      commit_loop env self { m_descs := pre ++ ds ++ post, m_desc_count := count }
          ds.length pre.length success w =
        (success + (dispatch_all env self ds w).1.count true,
          (dispatch_all env self ds w).2) := by
  induction ds with
  | nil => intro pre post count success w; simp [commit_loop, dispatch_all]
  | cons d ds ih =>
    intro pre post count success w
    have hget : (pre ++ d :: ds ++ post).getD pre.length default = d := by
      rw [List.getD_eq_getElem?_getD, List.append_assoc,
        List.getElem?_append_right (Nat.le_refl _)]
      simp
    have hshape : pre ++ d :: ds ++ post = (pre ++ [d]) ++ ds ++ post := by simp
    rw [List.length_cons, commit_loop_step]
    simp only [hget]
    have := ih (pre ++ [d]) post count
      (success + (strategy env self d w).1.toNat) (strategy env self d w).2
    simp only [List.length_append, List.length_singleton] at this
    rw [hshape, this, dispatch_all]
    cases (strategy env self d w).1 with
    | false => simp
    | true => simp; omega

lemma dispatch_all_length (env : Env) (self : Ptr) (ds : List hook_desc) :
    ∀ w : World, (dispatch_all env self ds w).1.length = ds.length := by
  induction ds with
  | nil => intro w; simp [dispatch_all]
  | cons d ds ih => intro w; simp [dispatch_all, ih]

lemma commit_add_all (env : Env) (arr reqs : List hook_desc) (w : World)
    (hself : env.self_base ≠ 0) :
    ((hook_setter.new arr).add_all reqs).commit env w =
      ((dispatch_all env env.self_base (reqs.take arr.length) w).1.count true,
        (dispatch_all env env.self_base (reqs.take arr.length) w).2) := by
  rw [add_all_new]
  unfold hook_setter.commit
  simp only [if_neg hself]
  have := commit_loop_dispatch env env.self_base (reqs.take arr.length) []
    (arr.drop reqs.length) (reqs.take arr.length).length 0 w
  simpa using this

lemma add_room_fst (pre post : List hook_desc) (p d : hook_desc) :
    (hook_setter.add { m_descs := pre ++ p :: post, m_desc_count := pre.length } d).1 = true := by
  have hlt : (hook_setter.mk (pre ++ p :: post) pre.length).m_desc_count <
      (hook_setter.mk (pre ++ p :: post) pre.length).m_descs.length := by
    simp
  obtain ⟨t, m, k, n⟩ := d
  cases t <;>
    simp [hook_setter.add, hook_setter.add_iat, hook_setter.add_jmp, hook_setter.add_trap,
      add_desc_room _ _ _ _ _ hlt]

lemma add_full_fst (pre : List hook_desc) (d : hook_desc) :
    (hook_setter.add { m_descs := pre, m_desc_count := pre.length } d).1 = false := by
  have hle : (hook_setter.mk pre pre.length).m_descs.length ≤
      (hook_setter.mk pre pre.length).m_desc_count := by
    simp
  obtain ⟨t, m, k, n⟩ := d
  cases t <;>
    simp [hook_setter.add, hook_setter.add_iat, hook_setter.add_jmp, hook_setter.add_trap,
      add_desc_full _ _ _ _ _ hle]

lemma accepted_shape (reqs : List hook_desc) :
    ∀ pre post : List hook_desc,
      hook_setter.accepted { m_descs := pre ++ post, m_desc_count := pre.length } reqs =
        reqs.take post.length := by
  induction reqs with
  | nil => intro pre post; simp [hook_setter.accepted]
  | cons d ds ih =>
    intro pre post
    cases post with
    | nil =>
      have h1 := add_full_fst pre d
      have h2 := add_full pre d
      simp only [List.append_nil] at h1 h2 ⊢
      rw [hook_setter.accepted, h1, h2]
      have := ih pre []
      simpa using this
    | cons p post =>
      rw [hook_setter.accepted, add_room_fst, add_room, if_pos rfl, ih (pre ++ [d]) post]
      simp

lemma accepted_new (arr reqs : List hook_desc) :
    (hook_setter.new arr).accepted reqs = reqs.take arr.length := by
  have := accepted_shape reqs [] arr
  simpa [hook_setter.new] using this

/-! ### The claims about the registry and commit -/

/-- C2: when the base address of the hooking module is not found, commit
returns 0 and the process is exactly as before the call: no patch, no trap
armed, no continuation called, nothing logged. -/
theorem commit_without_self (env : Env) (hs : hook_setter) (w : World)
    (h : env.self_base = 0) : hs.commit env w = (0, w) := by
  unfold hook_setter.commit
  simp [h]

/-- The base of `env_noself` is null and commit leaves `world0` as it is. -/
theorem commit_without_self_witness :
    env_noself.self_base = 0 ∧
      (setter4.add_all reqs3).commit env_noself world0 = (0, world0) :=
  ⟨rfl, commit_without_self env_noself (setter4.add_all reqs3) world0 rfl⟩

/-- C3: on a registry whose count equals the capacity of `m_descs`, add_trap
returns false and the registry is unchanged, so a following commit does what
it would have done without the call; below capacity add_trap returns true. -/
theorem add_trap_capacity (hs : hook_setter) (module : Ptr) (name : String) (trap : Ptr)
    (env : Env) (w : World) :
    (hs.m_desc_count = hs.m_descs.length →
      hs.add_trap module name trap = (false, hs) ∧
        (hs.add_trap module name trap).2.commit env w = hs.commit env w) ∧
    (hs.m_desc_count < hs.m_descs.length → (hs.add_trap module name trap).1 = true) := by
  constructor
  · intro h
    have hfull := add_desc_full hs hook_type.hook_type_trap module name trap (by omega)
    have : hs.add_trap module name trap = (false, hs) := by
      simp [hook_setter.add_trap, hfull]
    exact ⟨this, by rw [this]⟩
  · intro h
    simp [hook_setter.add_trap, add_desc_room hs hook_type.hook_type_trap module name trap h]

/-- A full registry of capacity one rejects the call; an empty one of capacity four accepts it. -/
theorem add_trap_capacity_witness :
    (setter_full.m_desc_count = setter_full.m_descs.length ∧
      setter_full.add_trap 5 "f" 7 = (false, setter_full) ∧
      (setter_full.add_trap 5 "f" 7).2.commit env_plain world0 =
        setter_full.commit env_plain world0) ∧
    (setter4.m_desc_count < setter4.m_descs.length ∧ (setter4.add_trap 5 "f" 7).1 = true) :=
  ⟨⟨by decide, (add_trap_capacity setter_full 5 "f" 7 env_plain world0).1 (by decide)⟩,
    ⟨by decide, (add_trap_capacity setter4 5 "f" 7 env_plain world0).2 (by decide)⟩⟩

/-- C4: after any sequence of add calls on a new registry, commit with self
resolved runs the strategy of each accepted request exactly once, in the order
of the calls, with the kind, module, name and replacement given to the call,
each on the process as the previous one left it and whatever the previous one
reported; the count is the number of reports that are true.  When the calls
are no more than the capacity, every request is an accepted one. -/
theorem commit_dispatches_in_order (env : Env) (arr reqs : List hook_desc) (w : World)
    (hself : env.self_base ≠ 0) :
    ((hook_setter.new arr).add_all reqs).commit env w =
      ((dispatch_all env env.self_base ((hook_setter.new arr).accepted reqs) w).1.count true,
        (dispatch_all env env.self_base ((hook_setter.new arr).accepted reqs) w).2) ∧
    (dispatch_all env env.self_base ((hook_setter.new arr).accepted reqs) w).1.length =
      ((hook_setter.new arr).accepted reqs).length ∧
    (reqs.length ≤ arr.length → (hook_setter.new arr).accepted reqs = reqs) := by
  refine ⟨?_, dispatch_all_length _ _ _ _, ?_⟩
  · rw [accepted_new]
    exact commit_add_all env arr reqs w hself
  · intro h
    rw [accepted_new]
    exact List.take_of_length_le h

/-- Three requests on a registry of four: all accepted, reports true, false, true. -/
theorem commit_dispatches_in_order_witness :
    env_plain.self_base ≠ 0 ∧
    (setter4.add_all reqs3).commit env_plain world0 =
      ((dispatch_all env_plain env_plain.self_base (setter4.accepted reqs3) world0).1.count true,
        (dispatch_all env_plain env_plain.self_base (setter4.accepted reqs3) world0).2) ∧
    setter4.accepted reqs3 = reqs3 ∧
    (dispatch_all env_plain env_plain.self_base reqs3 world0).1 = [true, false, true] :=
  ⟨by decide,
    (commit_dispatches_in_order env_plain [default, default, default, default] reqs3 world0
      (by decide)).1,
    by decide, by decide⟩

lemma commit_iat_true_iff (env : Env) (self : Ptr) (d : hook_desc) (w : World) :
    (commit_iat env self d w).1 = true ↔
      (iat_target env d w).1 ≠ 0 ∧ (own_import env self d (iat_target env d w)).1 ≠ 0 := by
  unfold commit_iat iat_target own_import
  by_cases h1 : (hook_iat env d.module d.name d.hook w).1 = 0
  · simp [h1]
  · by_cases h2 : (hook_iat env self d.name (hook_iat env d.module d.name d.hook w).1
        (hook_iat env d.module d.name d.hook w).2).1 = 0
    · simp [h1, h2]
    · simp [h1, h2]

lemma commit_jmp_true_iff (env : Env) (self : Ptr) (d : hook_desc) (w : World) :
    (commit_jmp env self d w).1 = true ↔
      (jmp_target env d w).1 ≠ 0 ∧ (own_import env self d (jmp_target env d w)).1 ≠ 0 := by
  unfold commit_jmp jmp_target own_import
  by_cases h1 : (hook_jmp env d.module d.name d.hook w).1 = 0
  · simp [h1]
  · by_cases h2 : (hook_iat env self d.name (hook_jmp env d.module d.name d.hook w).1
        (hook_jmp env d.module d.name d.hook w).2).1 = 0
    · simp [h1, h2]
    · simp [h1, h2]

/-- C1, as stated, fails: with no debugger and a write that fails, a queued
trap whose export resolves is counted although the trap byte was not written;
commit returns 1 where no hook had both steps succeed. -/
theorem commit_counts_trap_with_failed_write :
    env_readonly.self_base ≠ 0 ∧ env_readonly.debugger = false ∧
    ((setter4.add_all [req_trap]).commit env_readonly world0).1 = 1 ∧
    ([req_trap].filter (trap_steps_succeeded env_readonly)).length = 0 ∧
    ((setter4.add_all [req_trap]).commit env_readonly world0).2.log =
      [Event.get_export 5 "f" 100, Event.veh_add 1, Event.vm_write 100 0xf4 false] ∧
    read_byte ((setter4.add_all [req_trap]).commit env_readonly world0).2 100 = 0x48 := by
  refine ⟨by decide, by decide, by decide, by decide, by decide, by decide⟩

/-- C1 (amended): for N calls of add on a new registry, N no more than the
capacity, and self resolved, commit returns a count that is at most N and is
the number of requests whose strategy reported success.  An import patch or an
entry patch reports success exactly when the patch of the target and the patch
of the own import slot both succeeded.  A trap reports the result of the
continuation when a debugger is attached; with no debugger it reports failure
when the export does not resolve and success when the export resolves and the
write of the trap byte succeeds. -/
theorem commit_count (env : Env) (arr reqs : List hook_desc) (w : World)
    (hcap : reqs.length ≤ arr.length) (hself : env.self_base ≠ 0) :
    (((hook_setter.new arr).add_all reqs).commit env w).1 ≤ reqs.length ∧
    (((hook_setter.new arr).add_all reqs).commit env w).1 =
      (dispatch_all env env.self_base reqs w).1.count true ∧
    (∀ (d : hook_desc) (v : World),
      ((commit_iat env env.self_base d v).1 = true ↔
        (iat_target env d v).1 ≠ 0 ∧
          (own_import env env.self_base d (iat_target env d v)).1 ≠ 0)) ∧
    (∀ (d : hook_desc) (v : World),
      ((commit_jmp env env.self_base d v).1 = true ↔
        (jmp_target env d v).1 ≠ 0 ∧
          (own_import env env.self_base d (jmp_target env d v)).1 ≠ 0)) ∧
    (∀ (d : hook_desc) (v : World), env.debugger = true →
      (commit_trap env env.self_base d v).1 = (env.call d.hook v).1) ∧
    (∀ (d : hook_desc) (v : World), env.debugger = false →
      env.get_export d.module d.name = 0 → (commit_trap env env.self_base d v).1 = false) ∧
    (∀ (d : hook_desc) (v : World), env.debugger = false →
      trap_steps_succeeded env d = true → (commit_trap env env.self_base d v).1 = true) := by
  have hc := commit_add_all env arr reqs w hself
  rw [List.take_of_length_le hcap] at hc
  refine ⟨?_, ?_, fun d v => commit_iat_true_iff env _ d v,
    fun d v => commit_jmp_true_iff env _ d v, ?_, ?_, ?_⟩
  · rw [hc]
    calc (dispatch_all env env.self_base reqs w).1.count true
        ≤ (dispatch_all env env.self_base reqs w).1.length := List.count_le_length _ _
      _ = reqs.length := dispatch_all_length _ _ _ _
  · rw [hc]
  · intro d v hd
    simp [commit_trap, set_hook_trap, call_trap, hd]
  · intro d v hd he
    simp [commit_trap, set_hook_trap, get_export, hd, he]
  · intro d v hd hs
    have hne : env.get_export d.module d.name ≠ 0 := by
      simp [trap_steps_succeeded] at hs
      exact hs.1
    simp [commit_trap, set_hook_trap, get_export, hd, hne]

/-- Three requests on a registry of four, the entry patch failing: the count is 2. -/
theorem commit_count_witness :
    reqs3.length ≤ 4 ∧ env_plain.self_base ≠ 0 ∧
    ((setter4.add_all reqs3).commit env_plain world0).1 ≤ reqs3.length ∧
    ((setter4.add_all reqs3).commit env_plain world0).1 =
      (dispatch_all env_plain env_plain.self_base reqs3 world0).1.count true ∧
    ((setter4.add_all reqs3).commit env_plain world0).1 = 2 :=
  ⟨by decide, by decide,
    (commit_count env_plain [default, default, default, default] reqs3 world0
      (by decide) (by decide)).1,
    (commit_count env_plain [default, default, default, default] reqs3 world0
      (by decide) (by decide)).2.1,
    by decide⟩

/-! ### Chaining -/

/-- C9: an import patch or an entry patch first patches the target.  When that
returns a non-null trampoline `t`, the strategy patches the import slot of the
hooking module for the same symbol with exactly `t`, makes no other call, and
reports success exactly when the second patch returns non-null.  When the
patch of the target returns null, the strategy reports failure and makes no
second call: the own import slot is not touched. -/
theorem commit_chains_own_import (env : Env) (self : Ptr) (d : hook_desc) (w : World) :
    ((iat_target env d w).1 ≠ 0 →
      commit_iat env self d w =
        (decide ((own_import env self d (iat_target env d w)).1 ≠ 0),
          (own_import env self d (iat_target env d w)).2) ∧
      (commit_iat env self d w).2.log =
        w.log ++ [Event.hook_iat d.module d.name d.hook (iat_target env d w).1,
          Event.hook_iat self d.name (iat_target env d w).1
            (own_import env self d (iat_target env d w)).1]) ∧
    ((iat_target env d w).1 = 0 →
      commit_iat env self d w = (false, (iat_target env d w).2) ∧
      (commit_iat env self d w).2.log = w.log ++ [Event.hook_iat d.module d.name d.hook 0]) ∧
    ((jmp_target env d w).1 ≠ 0 →
      commit_jmp env self d w =
        (decide ((own_import env self d (jmp_target env d w)).1 ≠ 0),
          (own_import env self d (jmp_target env d w)).2) ∧
      (commit_jmp env self d w).2.log =
        w.log ++ [Event.hook_jmp d.module d.name d.hook (jmp_target env d w).1,
          Event.hook_iat self d.name (jmp_target env d w).1
            (own_import env self d (jmp_target env d w)).1]) ∧
    ((jmp_target env d w).1 = 0 →
      commit_jmp env self d w = (false, (jmp_target env d w).2) ∧
      (commit_jmp env self d w).2.log = w.log ++ [Event.hook_jmp d.module d.name d.hook 0]) ∧
    ((commit_iat env self d w).1 = true ↔
      (iat_target env d w).1 ≠ 0 ∧ (own_import env self d (iat_target env d w)).1 ≠ 0) ∧
    ((commit_jmp env self d w).1 = true ↔
      (jmp_target env d w).1 ≠ 0 ∧ (own_import env self d (jmp_target env d w)).1 ≠ 0) := by
  refine ⟨?_, ?_, ?_, ?_, commit_iat_true_iff env self d w, commit_jmp_true_iff env self d w⟩
  · intro h
    unfold iat_target at h
    by_cases h2 : (hook_iat env self d.name (hook_iat env d.module d.name d.hook w).1
        (hook_iat env d.module d.name d.hook w).2).1 = 0
    · constructor
      · simp [commit_iat, iat_target, own_import, h, h2]
      · simp [commit_iat, h, h2]
        simp [hook_iat, iat_target, own_import]
    · constructor
      · simp [commit_iat, iat_target, own_import, h, h2]
      · simp [commit_iat, h, h2]
        simp [hook_iat, iat_target, own_import]
  · intro h
    unfold iat_target at h
    constructor
    · simp [commit_iat, iat_target, h]
    · simp [commit_iat, h]
      simp [hook_iat] at h ⊢
      exact h
  · intro h
    unfold jmp_target at h
    by_cases h2 : (hook_iat env self d.name (hook_jmp env d.module d.name d.hook w).1
        (hook_jmp env d.module d.name d.hook w).2).1 = 0
    · constructor
      · simp [commit_jmp, jmp_target, own_import, h, h2]
      · simp [commit_jmp, h, h2]
        simp [hook_iat, hook_jmp, jmp_target, own_import]
    · constructor
      · simp [commit_jmp, jmp_target, own_import, h, h2]
      · simp [commit_jmp, h, h2]
        simp [hook_iat, hook_jmp, jmp_target, own_import]
  · intro h
    unfold jmp_target at h
    constructor
    · simp [commit_jmp, jmp_target, h]
    · simp [commit_jmp, h]
      simp [hook_jmp] at h ⊢
      exact h

/-- An import patch that succeeds makes both calls, an entry patch that fails makes one. -/
theorem commit_chains_own_import_witness :
    ((iat_target env_plain req_iat world0).1 ≠ 0 ∧
      (commit_iat env_plain 1 req_iat world0).2.log =
        [Event.hook_iat 5 "a" 11 77, Event.hook_iat 1 "a" 77 77]) ∧
    ((jmp_target env_plain req_jmp world0).1 = 0 ∧
      (commit_jmp env_plain 1 req_jmp world0).2.log = [Event.hook_jmp 9 "b" 12 0]) :=
  ⟨⟨by decide,
      ((commit_chains_own_import env_plain 1 req_iat world0).1 (by decide)).2⟩,
    ⟨by decide,
      ((commit_chains_own_import env_plain 1 req_jmp world0).2.2.2.1 (by decide)).2⟩⟩

/-! ### The trap -/

lemma vm_write_fields (env : Env) (addr : Ptr) (value : Nat) (w : World) :
    (vm_write env addr value w).2.veh = w.veh ∧
    (vm_write env addr value w).2.veh_next = w.veh_next ∧
    (vm_write env addr value w).2.g_hook_trap = w.g_hook_trap ∧
    (vm_write env addr value w).2.g_hook_trap_addr = w.g_hook_trap_addr ∧
    (vm_write env addr value w).2.g_hook_trap_value = w.g_hook_trap_value ∧
    (vm_write env addr value w).2.g_hook_veh_handle = w.g_hook_veh_handle ∧
    (vm_write env addr value w).2.log =
      w.log ++ [Event.vm_write addr value (env.writable addr)] := by
  unfold vm_write
  cases h : env.writable addr <;> simp [emit]

lemma vm_write_read (env : Env) (addr : Ptr) (value : Nat) (w : World)
    (h : env.writable addr = true) :
    read_byte (vm_write env addr value w).2 addr = value % 256 := by
  simp [vm_write, h, emit, read_byte]

/-- C7: an exception whose code is not the privileged-instruction code, or
whose address is not the armed address, gets the answer continue search and
the process is exactly as before: no continuation called, no byte written, no
handler removed, the trap state unchanged, nothing logged. -/
theorem hook_trap_veh_passes_through (env : Env) (info : EXCEPTION_POINTERS) (w : World)
    (h : info.ExceptionRecord.ExceptionCode ≠ EXCEPTION_PRIV_INSTRUCTION ∨
      info.ExceptionRecord.ExceptionAddress ≠ w.g_hook_trap_addr) :
    hook_trap_veh env info w = (EXCEPTION_CONTINUE_SEARCH, w) := by
  unfold hook_trap_veh
  rcases h with h | h
  · simp [h]
  · by_cases hc : info.ExceptionRecord.ExceptionCode = EXCEPTION_PRIV_INSTRUCTION
    · simp [hc, h]
    · simp [hc]

/-- With a trap armed at `100`, an exception at `300` and an access violation
at `100` both pass through. -/
theorem hook_trap_veh_passes_through_witness :
    (set_hook_trap env_plain 5 "f" 7 world0).2.g_hook_trap_addr = 100 ∧
    hook_trap_veh env_plain (priv_at 300) (set_hook_trap env_plain 5 "f" 7 world0).2 =
      (EXCEPTION_CONTINUE_SEARCH, (set_hook_trap env_plain 5 "f" 7 world0).2) ∧
    hook_trap_veh env_plain
        { ExceptionRecord := { ExceptionCode := 0xC0000005, ExceptionAddress := 100 } }
        (set_hook_trap env_plain 5 "f" 7 world0).2 =
      (EXCEPTION_CONTINUE_SEARCH, (set_hook_trap env_plain 5 "f" 7 world0).2) :=
  ⟨by decide,
    hook_trap_veh_passes_through env_plain (priv_at 300) _ (Or.inr (by decide)),
    hook_trap_veh_passes_through env_plain _ _ (Or.inl (by decide))⟩

/-- C8: with a debugger attached, set_hook_trap (and commit_trap with it) does
one thing: it calls the continuation on the process as it found it.  The log
gains that one call and nothing else (no export lookup, no handler installed,
no byte written), the result is the result of the continuation, and memory,
handler chain and trap state are as the continuation left them. -/
theorem set_hook_trap_with_debugger (env : Env) (module : Ptr) (name : String) (trap : Ptr)
    (w : World) (h : env.debugger = true) :
    (set_hook_trap env module name trap w).1 = (env.call trap w).1 ∧
    (set_hook_trap env module name trap w).2 =
      { (env.call trap w).2 with
        log := w.log ++ [Event.trap_call trap (env.call trap w).1] } ∧
    (set_hook_trap env module name trap w).2.log =
      w.log ++ [Event.trap_call trap (env.call trap w).1] ∧
    (∀ self : Ptr,
      commit_trap env self
          { type := hook_type.hook_type_trap, module := module, hook := trap, name := name } w =
        set_hook_trap env module name trap w) := by
  refine ⟨?_, ?_, ?_, fun _ => rfl⟩ <;> simp [set_hook_trap, call_trap, h]

/-- With a debugger and a continuation that returns false: one call, no handler, no byte written. -/
theorem set_hook_trap_with_debugger_witness :
    env_debugger.debugger = true ∧
    (set_hook_trap env_debugger 5 "f" 7 world0).1 = false ∧
    (set_hook_trap env_debugger 5 "f" 7 world0).2.log = [Event.trap_call 7 false] ∧
    (set_hook_trap env_debugger 5 "f" 7 world0).2.veh = [] ∧
    read_byte (set_hook_trap env_debugger 5 "f" 7 world0).2 100 = 0x48 :=
  ⟨rfl, (set_hook_trap_with_debugger env_debugger 5 "f" 7 world0 rfl).1,
    (set_hook_trap_with_debugger env_debugger 5 "f" 7 world0 rfl).2.2.1,
    by decide, by decide⟩

lemma set_hook_trap_arms (env : Env) (module : Ptr) (name : String) (trap : Ptr) (w : World)
    (hd : env.debugger = false) (hres : env.get_export module name ≠ 0) :
    (set_hook_trap env module name trap w).1 = true ∧
    (set_hook_trap env module name trap w).2.g_hook_trap = trap ∧
    (set_hook_trap env module name trap w).2.g_hook_trap_addr = env.get_export module name ∧
    (set_hook_trap env module name trap w).2.g_hook_trap_value =
      read_byte w (env.get_export module name) ∧
    (set_hook_trap env module name trap w).2.g_hook_veh_handle = w.veh_next + 1 ∧
    (set_hook_trap env module name trap w).2.veh = (w.veh_next + 1) :: w.veh ∧
    (set_hook_trap env module name trap w).2.veh_next = w.veh_next + 1 ∧
    (set_hook_trap env module name trap w).2.log =
      w.log ++ [Event.get_export module name (env.get_export module name),
        Event.veh_add (w.veh_next + 1),
        Event.vm_write (env.get_export module name) 0xf4
          (env.writable (env.get_export module name))] := by
  simp [set_hook_trap, hd, get_export, hres, vm_write_fields, AddVectoredExceptionHandler,
    emit, read_byte]

lemma set_hook_trap_byte (env : Env) (module : Ptr) (name : String) (trap : Ptr) (w : World)
    (hd : env.debugger = false) (hres : env.get_export module name ≠ 0)
    (hw : env.writable (env.get_export module name) = true) :
    read_byte (set_hook_trap env module name trap w).2 (env.get_export module name) = 0xf4 := by
  simp [set_hook_trap, hd, get_export, hres, vm_write_read, hw]

/-- C5, as stated, fails: a second set_hook_trap while the first trap is still
armed returns true, and the slot then holds the address, continuation and
handle of the second trap only; both trap bytes are written and both handlers
are installed. -/
theorem second_trap_overwrites_first :
    env_plain.debugger = false ∧
    (set_hook_trap env_plain 5 "f" 7 world0).1 = true ∧
    (set_hook_trap env_plain 5 "f" 7 world0).2.g_hook_trap_addr = 100 ∧
    (set_hook_trap env_plain 5 "f" 7 world0).2.g_hook_trap = 7 ∧
    (set_hook_trap env_plain 5 "f" 7 world0).2.g_hook_veh_handle = 1 ∧
    (set_hook_trap env_plain 5 "g" 8 (set_hook_trap env_plain 5 "f" 7 world0).2).1 = true ∧
    (set_hook_trap env_plain 5 "g" 8
      (set_hook_trap env_plain 5 "f" 7 world0).2).2.g_hook_trap_addr = 200 ∧
    (set_hook_trap env_plain 5 "g" 8
      (set_hook_trap env_plain 5 "f" 7 world0).2).2.g_hook_trap = 8 ∧
    (set_hook_trap env_plain 5 "g" 8
      (set_hook_trap env_plain 5 "f" 7 world0).2).2.g_hook_veh_handle = 2 ∧
    (set_hook_trap env_plain 5 "g" 8
      (set_hook_trap env_plain 5 "f" 7 world0).2).2.veh = [2, 1] ∧
    read_byte (set_hook_trap env_plain 5 "g" 8
      (set_hook_trap env_plain 5 "f" 7 world0).2).2 100 = 0xf4 ∧
    read_byte (set_hook_trap env_plain 5 "g" 8
      (set_hook_trap env_plain 5 "f" 7 world0).2).2 200 = 0xf4 := by
  refine ⟨by decide, by decide, by decide, by decide, by decide, by decide, by decide,
    by decide, by decide, by decide, by decide, by decide⟩

/-- C5 (amended): there is one trap slot and nothing guards it.  With no
debugger and both exports resolved, a second set_hook_trap made while a first
trap is armed returns true like the first, and the slot then holds the
continuation, address, saved byte and handle of the second trap; the handler
of the first trap stays installed under the one of the second. -/
theorem second_trap_takes_slot (env : Env) (m1 m2 : Ptr) (n1 n2 : String) (t1 t2 : Ptr)
    (w : World) (hd : env.debugger = false) (h1 : env.get_export m1 n1 ≠ 0)
    (h2 : env.get_export m2 n2 ≠ 0) :
    (set_hook_trap env m1 n1 t1 w).1 = true ∧
    (set_hook_trap env m1 n1 t1 w).2.g_hook_veh_handle = w.veh_next + 1 ∧
    (set_hook_trap env m2 n2 t2 (set_hook_trap env m1 n1 t1 w).2).1 = true ∧
    (set_hook_trap env m2 n2 t2 (set_hook_trap env m1 n1 t1 w).2).2.g_hook_trap = t2 ∧
    (set_hook_trap env m2 n2 t2 (set_hook_trap env m1 n1 t1 w).2).2.g_hook_trap_addr =
      env.get_export m2 n2 ∧
    (set_hook_trap env m2 n2 t2 (set_hook_trap env m1 n1 t1 w).2).2.g_hook_trap_value =
      read_byte (set_hook_trap env m1 n1 t1 w).2 (env.get_export m2 n2) ∧
    (set_hook_trap env m2 n2 t2 (set_hook_trap env m1 n1 t1 w).2).2.g_hook_veh_handle =
      w.veh_next + 2 ∧
    (set_hook_trap env m2 n2 t2 (set_hook_trap env m1 n1 t1 w).2).2.veh =
      (w.veh_next + 2) :: (w.veh_next + 1) :: w.veh := by
  have a := set_hook_trap_arms env m1 n1 t1 w hd h1
  have b := set_hook_trap_arms env m2 n2 t2 (set_hook_trap env m1 n1 t1 w).2 hd h2
  obtain ⟨a1, -, -, -, a5, a6, a7, -⟩ := a
  obtain ⟨b1, b2, b3, b4, b5, b6, -, -⟩ := b
  refine ⟨a1, a5, b1, b2, b3, b4, ?_, ?_⟩
  · rw [b5, a7]
  · rw [b6, a7, a6]

/-- Two traps armed in a row without a debugger: the slot holds the second. -/
theorem second_trap_takes_slot_witness :
    env_readonly.debugger = false ∧ env_readonly.get_export 5 "f" ≠ 0 ∧
    env_readonly.get_export 5 "g" ≠ 0 ∧
    (set_hook_trap env_readonly 5 "g" 8 (set_hook_trap env_readonly 5 "f" 7 world0).2).1 = true ∧
    (set_hook_trap env_readonly 5 "g" 8
      (set_hook_trap env_readonly 5 "f" 7 world0).2).2.g_hook_trap_addr = 200 ∧
    (set_hook_trap env_readonly 5 "g" 8
      (set_hook_trap env_readonly 5 "f" 7 world0).2).2.veh = [2, 1] :=
  ⟨rfl, by decide, by decide,
    (second_trap_takes_slot env_readonly 5 5 "f" "g" 7 8 world0 rfl (by decide)
      (by decide)).2.2.1,
    (second_trap_takes_slot env_readonly 5 5 "f" "g" 7 8 world0 rfl (by decide)
      (by decide)).2.2.2.2.1,
    (second_trap_takes_slot env_readonly 5 5 "f" "g" 7 8 world0 rfl (by decide)
      (by decide)).2.2.2.2.2.2.2⟩

lemma hook_trap_veh_match (env : Env) (info : EXCEPTION_POINTERS) (w : World)
    (hc : info.ExceptionRecord.ExceptionCode = EXCEPTION_PRIV_INSTRUCTION)
    (ha : info.ExceptionRecord.ExceptionAddress = w.g_hook_trap_addr)
    (ht : w.g_hook_trap ≠ 0) :
    hook_trap_veh env info w =
      (EXCEPTION_CONTINUE_EXECUTION,
        RemoveVectoredExceptionHandler
          (env.call w.g_hook_trap
            (vm_write env w.g_hook_trap_addr w.g_hook_trap_value w).2).2.g_hook_veh_handle
          (call_trap env w.g_hook_trap
            (vm_write env w.g_hook_trap_addr w.g_hook_trap_value w).2).2) := by
  have h3 := (vm_write_fields env w.g_hook_trap_addr w.g_hook_trap_value w).2.2.1
  simp [hook_trap_veh, hc, ha, h3, ht, call_trap]

lemma hook_trap_veh_match_null (env : Env) (info : EXCEPTION_POINTERS) (w : World)
    (hc : info.ExceptionRecord.ExceptionCode = EXCEPTION_PRIV_INSTRUCTION)
    (ha : info.ExceptionRecord.ExceptionAddress = w.g_hook_trap_addr)
    (ht : w.g_hook_trap = 0) :
    hook_trap_veh env info w =
      (EXCEPTION_CONTINUE_EXECUTION,
        RemoveVectoredExceptionHandler w.g_hook_veh_handle
          (vm_write env w.g_hook_trap_addr w.g_hook_trap_value w).2) := by
  have h3 := (vm_write_fields env w.g_hook_trap_addr w.g_hook_trap_value w).2.2.1
  have h6 := (vm_write_fields env w.g_hook_trap_addr w.g_hook_trap_value w).2.2.2.2.2.1
  simp [hook_trap_veh, hc, ha, h3, h6, ht]

/-- C10, as stated, fails: the handler is removed after the continuation has
run, and with the handle that the slot holds then.  When the continuation
arms a new trap, the handle removed is the new one (2) and not the one
installed when the tripped trap was armed (1): the new handler does not
survive and the old one stays installed. -/
theorem removal_follows_continuation :
    (set_hook_trap env_rearm 5 "f" 7 world0).2.g_hook_veh_handle = 1 ∧
    (set_hook_trap env_rearm 5 "f" 7 world0).2.log =
      [Event.get_export 5 "f" 100, Event.veh_add 1, Event.vm_write 100 0xf4 true] ∧
    (hook_trap_veh env_rearm (priv_at 100) (set_hook_trap env_rearm 5 "f" 7 world0).2).2.log =
      [Event.get_export 5 "f" 100, Event.veh_add 1, Event.vm_write 100 0xf4 true,
        Event.vm_write 100 0x48 true, Event.trap_call 7 true, Event.veh_remove 2] ∧
    (hook_trap_veh env_rearm (priv_at 100)
      (set_hook_trap env_rearm 5 "f" 7 world0).2).2.g_hook_veh_handle = 2 ∧
    2 ∉ (hook_trap_veh env_rearm (priv_at 100)
      (set_hook_trap env_rearm 5 "f" 7 world0).2).2.veh := by
  refine ⟨by decide, by decide, by decide, by decide, by decide⟩

/-- C10 (amended): on a matching trap exception, hook_trap_veh restores the
saved byte, then calls the continuation (when it is not null), then removes a
handler, in this order and each once.  For every continuation that leaves the
handle of the slot as it found it, and for a null continuation, the handle
passed to the removal is the one the slot held when the exception arrived,
which is the one installed when the trap was armed. -/
theorem hook_trap_veh_order (env : Env) (info : EXCEPTION_POINTERS) (w : World)
    (hc : info.ExceptionRecord.ExceptionCode = EXCEPTION_PRIV_INSTRUCTION)
    (ha : info.ExceptionRecord.ExceptionAddress = w.g_hook_trap_addr) :
    (w.g_hook_trap ≠ 0 →
      ∃ (b : Bool) (handle : Ptr),
        (hook_trap_veh env info w).2.log =
          w.log ++ [Event.vm_write w.g_hook_trap_addr w.g_hook_trap_value
              (env.writable w.g_hook_trap_addr),
            Event.trap_call w.g_hook_trap b,
            Event.veh_remove handle]) ∧
    (w.g_hook_trap ≠ 0 →
      (∀ v : World, (env.call w.g_hook_trap v).2.g_hook_veh_handle = v.g_hook_veh_handle) →
      ∃ b : Bool,
        (hook_trap_veh env info w).2.log =
          w.log ++ [Event.vm_write w.g_hook_trap_addr w.g_hook_trap_value
              (env.writable w.g_hook_trap_addr),
            Event.trap_call w.g_hook_trap b,
            Event.veh_remove w.g_hook_veh_handle]) ∧
    (w.g_hook_trap = 0 →
      (hook_trap_veh env info w).2.log =
        w.log ++ [Event.vm_write w.g_hook_trap_addr w.g_hook_trap_value
            (env.writable w.g_hook_trap_addr),
          Event.veh_remove w.g_hook_veh_handle]) := by
  have h6 := (vm_write_fields env w.g_hook_trap_addr w.g_hook_trap_value w).2.2.2.2.2.1
  have h7 := (vm_write_fields env w.g_hook_trap_addr w.g_hook_trap_value w).2.2.2.2.2.2
  have key : w.g_hook_trap ≠ 0 →
      (hook_trap_veh env info w).2.log =
        w.log ++ [Event.vm_write w.g_hook_trap_addr w.g_hook_trap_value
            (env.writable w.g_hook_trap_addr),
          Event.trap_call w.g_hook_trap
            (env.call w.g_hook_trap
              (vm_write env w.g_hook_trap_addr w.g_hook_trap_value w).2).1,
          Event.veh_remove
            (env.call w.g_hook_trap
              (vm_write env w.g_hook_trap_addr w.g_hook_trap_value w).2).2.g_hook_veh_handle] := by
    intro ht
    rw [hook_trap_veh_match env info w hc ha ht]
    simp [RemoveVectoredExceptionHandler, emit, call_trap, h7]
  refine ⟨fun ht => ⟨_, _, key ht⟩, ?_, ?_⟩
  · intro ht hf
    refine ⟨(env.call w.g_hook_trap
      (vm_write env w.g_hook_trap_addr w.g_hook_trap_value w).2).1, ?_⟩
    rw [key ht, hf, h6]
  · intro ht
    rw [hook_trap_veh_match_null env info w hc ha ht]
    simp [RemoveVectoredExceptionHandler, emit, h7]

/-- A trap armed at `100` whose continuation returns false: write, call, removal of handle 1. -/
theorem hook_trap_veh_order_witness :
    (priv_at 100).ExceptionRecord.ExceptionCode = EXCEPTION_PRIV_INSTRUCTION ∧
    (priv_at 100).ExceptionRecord.ExceptionAddress =
      (set_hook_trap env_fail 5 "f" 7 world0).2.g_hook_trap_addr ∧
    (set_hook_trap env_fail 5 "f" 7 world0).2.g_hook_trap ≠ 0 ∧
    (set_hook_trap env_fail 5 "f" 7 world0).2.g_hook_veh_handle = 1 ∧
    (∀ v : World, (env_fail.call 7 v).2.g_hook_veh_handle = v.g_hook_veh_handle) ∧
    (∃ b : Bool,
      (hook_trap_veh env_fail (priv_at 100) (set_hook_trap env_fail 5 "f" 7 world0).2).2.log =
        (set_hook_trap env_fail 5 "f" 7 world0).2.log ++
          [Event.vm_write 100 0x48 true, Event.trap_call 7 b, Event.veh_remove 1]) :=
  ⟨by decide, by decide, by decide, by decide, fun _ => rfl,
    (hook_trap_veh_order env_fail (priv_at 100) (set_hook_trap env_fail 5 "f" 7 world0).2
      (by decide) (by decide)).2.1 (by decide) (fun _ => rfl)⟩

/-- C6, as stated, fails at (b) and (c): with no debugger, the export
resolved, every write succeeding and a non-null continuation that arms a trap
on the same export again, after the matching exception has been handled the
byte at the target is the trap byte and not the byte from before arming, and
the handler installed when the trap was armed (handle 1) is still installed. -/
theorem armed_handler_outlives_trip :
    env_rearm_same.debugger = false ∧ env_rearm_same.get_export 5 "f" = 100 ∧
    env_rearm_same.writable 100 = true ∧ (7 : Ptr) ≠ 0 ∧
    read_byte world0 100 = 0x48 ∧
    (set_hook_trap env_rearm_same 5 "f" 7 world0).1 = true ∧
    (set_hook_trap env_rearm_same 5 "f" 7 world0).2.veh = [1] ∧
    (hook_trap_veh env_rearm_same (priv_at 100)
      (set_hook_trap env_rearm_same 5 "f" 7 world0).2).1 = EXCEPTION_CONTINUE_EXECUTION ∧
    read_byte (hook_trap_veh env_rearm_same (priv_at 100)
      (set_hook_trap env_rearm_same 5 "f" 7 world0).2).2 100 = 0xf4 ∧
    1 ∈ (hook_trap_veh env_rearm_same (priv_at 100)
      (set_hook_trap env_rearm_same 5 "f" 7 world0).2).2.veh := by
  refine ⟨by decide, by decide, by decide, by decide, by decide, by decide, by decide,
    by decide, by decide, by decide⟩

/-- C6 (amended): with no debugger, the export resolved, the writes at its
address succeeding and a non-null continuation, arming a trap and then
delivering one privileged-instruction exception at the armed address gives,
whatever the continuation returns: (a) exactly one call of the continuation,
after the restoring write and before the one removal; (d) the answer continue
execution; (b) the byte at the target as it was before arming, when the
continuation leaves that byte as it finds it; (c) the handler installed by the
arming removed and the chain as before arming, when the continuation leaves
the handle of the slot and the chain as it finds them. -/
theorem trap_fires_once (env : Env) (module : Ptr) (name : String) (trap : Ptr) (w : World)
    (hd : env.debugger = false) (hres : env.get_export module name ≠ 0)
    (hw : env.writable (env.get_export module name) = true) (ht : trap ≠ 0) :
    (set_hook_trap env module name trap w).1 = true ∧
    (set_hook_trap env module name trap w).2.veh = (w.veh_next + 1) :: w.veh ∧
    read_byte (set_hook_trap env module name trap w).2 (env.get_export module name) = 0xf4 ∧
    (∃ (b : Bool) (handle : Ptr),
      (hook_trap_veh env (priv_at (env.get_export module name))
          (set_hook_trap env module name trap w).2).2.log =
        w.log ++ [Event.get_export module name (env.get_export module name),
          Event.veh_add (w.veh_next + 1),
          Event.vm_write (env.get_export module name) 0xf4 true,
          Event.vm_write (env.get_export module name)
            (read_byte w (env.get_export module name)) true,
          Event.trap_call trap b,
          Event.veh_remove handle]) ∧
    (hook_trap_veh env (priv_at (env.get_export module name))
      (set_hook_trap env module name trap w).2).1 = EXCEPTION_CONTINUE_EXECUTION ∧
    ((∀ v : World, read_byte (env.call trap v).2 (env.get_export module name) =
        read_byte v (env.get_export module name)) →
      read_byte (hook_trap_veh env (priv_at (env.get_export module name))
          (set_hook_trap env module name trap w).2).2 (env.get_export module name) =
        read_byte w (env.get_export module name)) ∧
    ((∀ v : World, (env.call trap v).2.g_hook_veh_handle = v.g_hook_veh_handle ∧
        (env.call trap v).2.veh = v.veh) →
      (hook_trap_veh env (priv_at (env.get_export module name))
        (set_hook_trap env module name trap w).2).2.veh = w.veh ∧
      (hook_trap_veh env (priv_at (env.get_export module name))
        (set_hook_trap env module name trap w).2).2.log.getLast? =
          some (Event.veh_remove (w.veh_next + 1))) := by
  obtain ⟨a1, a2, a3, a4, a5, a6, -, a8⟩ := set_hook_trap_arms env module name trap w hd hres
  have hbyte := set_hook_trap_byte env module name trap w hd hres hw
  have hc : (priv_at (env.get_export module name)).ExceptionRecord.ExceptionCode =
      EXCEPTION_PRIV_INSTRUCTION := rfl
  have ha : (priv_at (env.get_export module name)).ExceptionRecord.ExceptionAddress =
      (set_hook_trap env module name trap w).2.g_hook_trap_addr := by rw [a3]; rfl
  have ht2 : (set_hook_trap env module name trap w).2.g_hook_trap ≠ 0 := by rw [a2]; exact ht
  have hm := hook_trap_veh_match env _ _ hc ha ht2
  rw [a2, a3, a4] at hm
  obtain ⟨f1, -, -, -, -, f6, f7⟩ := vm_write_fields env (env.get_export module name)
    (read_byte w (env.get_export module name)) (set_hook_trap env module name trap w).2
  refine ⟨a1, a6, hbyte,
    ⟨(env.call trap (vm_write env (env.get_export module name)
      (read_byte w (env.get_export module name))
      (set_hook_trap env module name trap w).2).2).1,
     (env.call trap (vm_write env (env.get_export module name)
      (read_byte w (env.get_export module name))
      (set_hook_trap env module name trap w).2).2).2.g_hook_veh_handle, ?_⟩, ?_, ?_, ?_⟩
  · rw [hm]
    simp only [RemoveVectoredExceptionHandler, emit, call_trap]
    rw [f7, a8, hw]
    simp
  · rw [hm]
  · intro hframe
    have g3 := hframe (vm_write env (env.get_export module name)
      (read_byte w (env.get_export module name)) (set_hook_trap env module name trap w).2).2
    rw [hm]
    have : read_byte (RemoveVectoredExceptionHandler
        (env.call trap (vm_write env (env.get_export module name)
          (read_byte w (env.get_export module name))
          (set_hook_trap env module name trap w).2).2).2.g_hook_veh_handle
        (call_trap env trap (vm_write env (env.get_export module name)
          (read_byte w (env.get_export module name))
          (set_hook_trap env module name trap w).2).2).2) (env.get_export module name) =
        read_byte (env.call trap (vm_write env (env.get_export module name)
          (read_byte w (env.get_export module name))
          (set_hook_trap env module name trap w).2).2).2 (env.get_export module name) := rfl
    rw [this, g3, vm_write_read env _ _ _ hw]
    simp [read_byte]
  · intro hframe
    obtain ⟨g1, g2⟩ := hframe (vm_write env (env.get_export module name)
      (read_byte w (env.get_export module name)) (set_hook_trap env module name trap w).2).2
    rw [hm]
    simp only [RemoveVectoredExceptionHandler, emit, call_trap]
    rw [g2, g1, f1, f6, a5, a6]
    simp

/-- A trap armed at `100` whose continuation returns false: chain empty, byte
restored, execution continued. -/
theorem trap_fires_once_witness :
    env_fail.debugger = false ∧ env_fail.get_export 5 "f" ≠ 0 ∧
    env_fail.writable (env_fail.get_export 5 "f") = true ∧ (7 : Ptr) ≠ 0 ∧
    (env_fail.call 7 world0).1 = false ∧
    (hook_trap_veh env_fail (priv_at 100) (set_hook_trap env_fail 5 "f" 7 world0).2).2.veh = [] ∧
    read_byte (hook_trap_veh env_fail (priv_at 100)
      (set_hook_trap env_fail 5 "f" 7 world0).2).2 100 = 0x48 ∧
    (hook_trap_veh env_fail (priv_at 100) (set_hook_trap env_fail 5 "f" 7 world0).2).1 =
      EXCEPTION_CONTINUE_EXECUTION :=
  ⟨rfl, by decide, by decide, by decide, by decide,
    ((trap_fires_once env_fail 5 "f" 7 world0 rfl (by decide) (by decide)
      (by decide)).2.2.2.2.2.2 (fun _ => ⟨rfl, rfl⟩)).1,
    (trap_fires_once env_fail 5 "f" 7 world0 rfl (by decide) (by decide)
      (by decide)).2.2.2.2.2.1 (fun _ => rfl),
    (trap_fires_once env_fail 5 "f" 7 world0 rfl (by decide) (by decide)
      (by decide)).2.2.2.2.1⟩

end Clink
